import Mathlib

/-!
Shallow embedding of the finedata-mcp server (src/mcp_server) in Lean 4.

Python values that flow through JSON dictionaries are modelled by `PyVal`;
dictionaries are association lists; exceptions are modelled by `PyExc` and
fallible Python code returns `Except PyExc α`.  The HTTP layer is an oracle
value (`HttpBehaviour` / `NetOutcome`) supplied as an argument: it describes
what the single remote call made by each client method does.
-/

/-- A JSON-ish Python value as it appears in tool arguments and payloads. -/
inductive PyVal where
  | str (s : String)
  | int (n : Int)
  | bool (b : Bool)
  | none
  | dict (d : List (String × PyVal))
  | list (l : List PyVal)

/-- Python truthiness for the values we model (`if x:`). -/
def pyTruthy : PyVal → Bool
  | PyVal.str s => !(s == "")
  | PyVal.int n => !(n == 0)
  | PyVal.bool b => b
  | PyVal.none => false
  | PyVal.dict d => !d.isEmpty
  | PyVal.list l => !l.isEmpty

/-- `d.get(k)` on a Python dict: `None` when the key is missing. -/
def pyGet (args : List (String × PyVal)) (k : String) : PyVal :=
  (List.lookup k args).getD PyVal.none

/-- `d.get(k, default)` on a Python dict. -/
def pyGetD (args : List (String × PyVal)) (k : String) (dflt : PyVal) : PyVal :=
  (List.lookup k args).getD dflt

/-- Python exceptions relevant to this code base (`except Exception` scope). -/
inductive PyExc where
  | typeError (msg : String)
  | valueError (msg : String)
  | timeoutException
  | jsonError (msg : String)
  | httpStatusError (msg : String)
  | other (msg : String)
deriving DecidableEq, Repr

/-- `str(e)` as used by `call_tool` and the scrape fallback branch. -/
def excStr : PyExc → String
  | PyExc.typeError m => m
  | PyExc.valueError m => m
  | PyExc.timeoutException => ""
  | PyExc.jsonError m => m
  | PyExc.httpStatusError m => m
  | PyExc.other m => m

/-- `str(b)` for a Python bool. -/
def pyStrBool (b : Bool) : String := if b then "True" else "False"

/-- Substring containment: `pat` occurs contiguously inside `s`. -/
def ContainsStr (s pat : String) : Prop := pat.data <:+: s.data

instance containsStrDecidable (s pat : String) : Decidable (ContainsStr s pat) :=
  List.decidableInfix pat.data s.data

/-! ## src/mcp_server/config.py -/

/-- Message of the `ValueError` raised by Python `int(s)` on a bad literal. -/
def pyIntErrMsg (s : String) : String :=
  "invalid literal for int() with base 10: \x27" ++ s ++ "\x27"

/-- Digits of a decimal literal folded into a number. -/
def digitsToNat (l : List Char) : Nat :=
  l.foldl (fun acc c => acc * 10 + (c.toNat - 48)) 0

/-- Python `int(s)` restricted to plain decimal literals with an optional
sign: raises `ValueError` on anything else. -/
def pyInt (s : String) : Except PyExc Int :=
  match s.data with
  | [] => Except.error (PyExc.valueError (pyIntErrMsg s))
  | c :: cs =>
    if c = '-' then
      if cs ≠ [] ∧ cs.all Char.isDigit then Except.ok (-(digitsToNat cs : Int))
      else Except.error (PyExc.valueError (pyIntErrMsg s))
    else if c = '+' then
      if cs ≠ [] ∧ cs.all Char.isDigit then Except.ok (digitsToNat cs : Int)
      else Except.error (PyExc.valueError (pyIntErrMsg s))
    else
      if (c :: cs).all Char.isDigit then Except.ok (digitsToNat (c :: cs) : Int)
      else Except.error (PyExc.valueError (pyIntErrMsg s))

/-- `Config` dataclass: api_key, api_url, timeout. -/
structure Config where
  api_key : String
  api_url : String
  timeout : Int
deriving DecidableEq, Repr

/-- Message of the `ValueError` raised when `FINEDATA_API_KEY` is missing. -/
def apiKeyErrMsg : String :=
  "FINEDATA_API_KEY environment variable is required. Get your API key at https://finedata.ai"

/-- `Config.from_env`: the process environment is a partial map from
variable name to value; `os.environ.get(k, d)` is `(env k).getD d`. -/
def Config.from_env (env : String → Option String) : Except PyExc Config :=
  let api_key := (env "FINEDATA_API_KEY").getD ""
  if api_key = "" then
    Except.error (PyExc.valueError apiKeyErrMsg)
  else
    match pyInt ((env "FINEDATA_TIMEOUT").getD "180") with
    | Except.error e => Except.error e
    | Except.ok t =>
        Except.ok
          { api_key := api_key
            api_url := (env "FINEDATA_API_URL").getD "https://api.finedata.ai"
            timeout := t }

/-! ## src/mcp_server/client.py -/

/-- `ScrapeOptions` dataclass with its declared defaults. -/
structure ScrapeOptions where
  method : String := "GET"
  headers : List (String × String) := []
  body : Option String := none
  tls_profile : String := "chrome124"
  max_retries : Int := 5
  timeout : Int := 60
  use_antibot : Bool := true
  use_js_render : Bool := false
  use_residential : Bool := false
  use_mobile : Bool := false
  use_undetected : Bool := false
  js_wait_for : String := "networkidle"
  js_scroll : Bool := false
  solve_captcha : Bool := false
  session_id : Option String := none
  session_ttl : Int := 1800

/-- An optional string serialized into JSON (`None` vs a string). -/
def optStrVal : Option String → PyVal
  | Option.none => PyVal.none
  | Option.some s => PyVal.str s

/-- `ScrapeOptions.to_dict`: the API request dict, one entry per field. -/
def ScrapeOptions.to_dict (o : ScrapeOptions) : List (String × PyVal) :=
  [("method", PyVal.str o.method),
   ("headers", PyVal.dict (o.headers.map fun p => (p.1, PyVal.str p.2))),
   ("body", optStrVal o.body),
   ("tls_profile", PyVal.str o.tls_profile),
   ("max_retries", PyVal.int o.max_retries),
   ("timeout", PyVal.int o.timeout),
   ("use_antibot", PyVal.bool o.use_antibot),
   ("use_js_render", PyVal.bool o.use_js_render),
   ("use_residential", PyVal.bool o.use_residential),
   ("use_mobile", PyVal.bool o.use_mobile),
   ("use_undetected", PyVal.bool o.use_undetected),
   ("js_wait_for", PyVal.str o.js_wait_for),
   ("js_scroll", PyVal.bool o.js_scroll),
   ("solve_captcha", PyVal.bool o.solve_captcha),
   ("session_id", optStrVal o.session_id),
   ("session_ttl", PyVal.int o.session_ttl)]

/-- The `meta` dict of a scrape result; only these two keys are ever read. -/
structure Meta where
  block_reason : Option String := none
  response_time_ms : Option Int := none

/-- `ScrapeResult` dataclass. -/
structure ScrapeResult where
  success : Bool
  status_code : Int
  headers : List (String × PyVal)
  body : String
  meta : Meta
  tokens_used : Int
  captcha_detected : Bool := false
  captcha_type : Option String := none
  captcha_solved : Bool := false
  error : Option String := none

/-- `AsyncJob` dataclass. -/
structure AsyncJob where
  job_id : String
  status : String
  url : String
  created_at : String
  estimated_completion : Option String := none
  result : Option ScrapeResult := none
  error : Option String := none

/-- The JSON body of a 2xx `/api/v1/scrape` response (`data.get` fields). -/
structure ScrapePayload where
  success : Option Bool := none
  status_code : Option Int := none
  headers : Option (List (String × PyVal)) := none
  body : Option String := none
  meta : Option Meta := none
  tokens_used : Option Int := none
  captcha_detected : Option Bool := none
  captcha_type : Option String := none
  captcha_solved : Option Bool := none

/-- What the single HTTP POST issued by `scrape` does: a response whose JSON
body parses, a response whose `.json()` raises, a transport timeout
(`httpx.TimeoutException`), or any other exception. -/
inductive HttpBehaviour where
  | response (status : Int) (payload : ScrapePayload)
  | responseBadJson (status : Int) (msg : String)
  | timeout
  | exc (msg : String)

/-- The 401 result literal from `scrape`. -/
def scrapeResult401 : ScrapeResult :=
  { success := false, status_code := 401, headers := [], body := "", meta := {},
    tokens_used := 0, error := some "Invalid API key. Check your FINEDATA_API_KEY." }

/-- The 402 result literal from `scrape`. -/
def scrapeResult402 : ScrapeResult :=
  { success := false, status_code := 402, headers := [], body := "", meta := {},
    tokens_used := 0, error := some "Payment required. Please add tokens or upgrade your plan." }

/-- The `try:` block of `FineDataClient.scrape` — every exception it can
raise is surfaced as `Except.error`. -/
def scrapeTryBody (b : HttpBehaviour) : Except PyExc ScrapeResult :=
  match b with
  | HttpBehaviour.timeout => Except.error PyExc.timeoutException
  | HttpBehaviour.exc m => Except.error (PyExc.other m)
  | HttpBehaviour.response status data =>
      if status = 401 then Except.ok scrapeResult401
      else if status = 402 then Except.ok scrapeResult402
      else Except.ok
        { success := data.success.getD false
          status_code := data.status_code.getD status
          headers := data.headers.getD []
          body := data.body.getD ""
          meta := data.meta.getD {}
          tokens_used := data.tokens_used.getD 0
          captcha_detected := data.captcha_detected.getD false
          captcha_type := data.captcha_type
          captcha_solved := data.captcha_solved.getD false }
  | HttpBehaviour.responseBadJson status m =>
      if status = 401 then Except.ok scrapeResult401
      else if status = 402 then Except.ok scrapeResult402
      else Except.error (PyExc.jsonError m)

/-- `FineDataClient.scrape` with its two `except` clauses; `timeout` is the
client's configured timeout (`config.timeout`). -/
def FineDataClient.scrape (timeout : Int) (url : String)
    (options : Option ScrapeOptions) (b : HttpBehaviour) :
    Except PyExc ScrapeResult :=
  let opts := options.getD {}
  let _payload : List (String × PyVal) := ("url", PyVal.str url) :: opts.to_dict
  match scrapeTryBody b with
  | Except.ok r => Except.ok r
  | Except.error PyExc.timeoutException =>
      Except.ok
        { success := false, status_code := 504, headers := [], body := "", meta := {},
          tokens_used := 0,
          error := some ("Request timed out after " ++ toString timeout ++ " seconds") }
  | Except.error e =>
      Except.ok
        { success := false, status_code := 500, headers := [], body := "", meta := {},
          tokens_used := 0, error := some (excStr e) }

/-- Outcome of a single remote call on the raising paths
(`scrape_async`, `get_job_status`, `batch_scrape`, `get_usage`): either a
parsed 2xx payload or an exception (from the request itself,
`raise_for_status`, or `.json()`). -/
inductive NetOutcome (α : Type) where
  | ok (payload : α)
  | raises (e : PyExc)

/-- The JSON body of a 2xx `/api/v1/async/scrape` response (indexed keys
are required; `.get` keys optional). -/
structure AsyncPayload where
  job_id : String
  status : String
  url : String
  created_at : String
  estimated_completion : Option String := none

/-- `FineDataClient.scrape_async`: builds the job from the payload, and
re-raises any exception after logging. -/
def FineDataClient.scrape_async (url : String) (options : Option ScrapeOptions)
    (callback_url : Option String) (callback_headers : Option (List (String × String)))
    (b : NetOutcome AsyncPayload) : Except PyExc AsyncJob :=
  let opts := options.getD {}
  let _payload : List (String × PyVal) :=
    ("url", PyVal.str url) :: opts.to_dict
      ++ [("callback_url", optStrVal callback_url),
          ("callback_headers",
            match callback_headers with
            | Option.none => PyVal.none
            | Option.some hs => PyVal.dict (hs.map fun p => (p.1, PyVal.str p.2)))]
  match b with
  | NetOutcome.ok data =>
      Except.ok
        { job_id := data.job_id, status := data.status, url := data.url,
          created_at := data.created_at,
          estimated_completion := data.estimated_completion }
  | NetOutcome.raises e => Except.error e

/-- The nested `result` object of a job-status payload.  The top-level
`data.get("result")` truthiness check means an absent, `None` or empty
`result` are all identified with `none` here. -/
structure ResultPayload where
  success : Option Bool := none
  status_code : Option Int := none
  headers : Option (List (String × PyVal)) := none
  body : Option String := none
  meta : Option Meta := none
  tokens_used : Option Int := none

/-- The JSON body of a 2xx `/api/v1/async/jobs/{id}` response. -/
structure JobPayload where
  job_id : String
  status : String
  url : String
  created_at : String
  result : Option ResultPayload := none
  error : Option String := none
  tokens_used : Option Int := none

/-- `FineDataClient.get_job_status`: note the embedded result's
`tokens_used` is read from the top level of the payload (`data`), not from
the nested result object `r`. -/
def FineDataClient.get_job_status (job_id : String) (b : NetOutcome JobPayload) :
    Except PyExc AsyncJob :=
  let _requestPath := "/api/v1/async/jobs/" ++ job_id
  match b with
  | NetOutcome.raises e => Except.error e
  | NetOutcome.ok data =>
      let result : Option ScrapeResult :=
        match data.result with
        | Option.none => none
        | Option.some r =>
            some
              { success := r.success.getD false
                status_code := r.status_code.getD 0
                headers := r.headers.getD []
                body := r.body.getD ""
                meta := r.meta.getD {}
                tokens_used := data.tokens_used.getD 0 }
      Except.ok
        { job_id := data.job_id, status := data.status, url := data.url,
          created_at := data.created_at, result := result, error := data.error }

/-- The JSON body of a 2xx `/api/v1/async/batch` response, returned
verbatim by `batch_scrape`; only these keys are read by the handler. -/
structure BatchPayload where
  batch_id : Option String := none
  total_jobs : Option Int := none
  status : Option String := none
  job_ids : List String := []

/-- `FineDataClient.batch_scrape`: the 100-URL cap is checked before the
HTTP client is even obtained, so the outcome of the oracle `b` cannot
influence the over-limit branch. -/
def FineDataClient.batch_scrape (urls : List String) (options : Option ScrapeOptions)
    (callback_url : Option String) (b : NetOutcome BatchPayload) :
    Except PyExc BatchPayload :=
  let opts := options.getD {}
  if urls.length > 100 then
    Except.error (PyExc.valueError "Maximum 100 URLs per batch")
  else
    let requests : List (List (String × PyVal)) :=
      urls.map fun url => ("url", PyVal.str url) :: opts.to_dict
    let _payload : List (String × PyVal) :=
      [("requests", PyVal.list (requests.map PyVal.dict)),
       ("callback_url", optStrVal callback_url)]
    match b with
    | NetOutcome.ok data => Except.ok data
    | NetOutcome.raises e => Except.error e

/-- One entry of `charges_usage` in the usage payload. -/
structure ChargeEntry where
  units : Option String := none

/-- The `customer_usage` object of the usage payload. -/
structure CustomerUsage where
  from_datetime : Option String := none
  to_datetime : Option String := none
  charges_usage : Option (List ChargeEntry) := none

/-- The JSON body of a 2xx `/api/v1/usage` response. -/
structure UsagePayload where
  customer_usage : Option CustomerUsage := none

/-- `FineDataClient.get_usage`: returns the payload verbatim, re-raises
any exception. -/
def FineDataClient.get_usage (b : NetOutcome UsagePayload) : Except PyExc UsagePayload :=
  match b with
  | NetOutcome.ok data => Except.ok data
  | NetOutcome.raises e => Except.error e

/-! ## src/mcp_server/tools.py -/

/-- `TextContent(type="text", text=...)` from the MCP types. -/
structure TextContent where
  type : String
  text : String

/-- Build a `TextContent(type="text", text=s)`. -/
def mkText (s : String) : TextContent := { type := "text", text := s }

/-- Python `str(v)` for the scalar values that actually flow through the
handlers; containers are never stringified on any modelled path. -/
def pyStr : PyVal → String
  | PyVal.str s => s
  | PyVal.int n => toString n
  | PyVal.bool b => pyStrBool b
  | PyVal.none => "None"
  | PyVal.dict _ => "\x7b...\x7d"
  | PyVal.list _ => "[...]"

/-- A tool-argument value stored into a boolean dataclass field. -/
def asBool (v : PyVal) : Bool :=
  match v with
  | PyVal.bool b => b
  | v => pyTruthy v

/-- A tool-argument value stored into an integer dataclass field. -/
def asInt (v : PyVal) : Int :=
  match v with
  | PyVal.int n => n
  | PyVal.bool b => if b then 1 else 0
  | _ => 0

/-- A tool-argument value stored into an optional-string dataclass field. -/
def asOptStr (v : PyVal) : Option String :=
  match v with
  | PyVal.none => none
  | v => some (pyStr v)

/-- Truthiness of an optional string (`if x:` where x is `None` or `str`). -/
def optStrTruthy : Option String → Bool
  | Option.none => false
  | Option.some s => !(s == "")

/-- Truthiness of an optional int. -/
def optIntTruthy : Option Int → Bool
  | Option.none => false
  | Option.some n => !(n == 0)

/-- The field names of the `ScrapeOptions` dataclass, i.e. the keyword
arguments its generated `__init__` accepts. -/
def scrapeOptionsFieldNames : List String :=
  ["method", "headers", "body", "tls_profile", "max_retries", "timeout",
   "use_antibot", "use_js_render", "use_residential", "use_mobile",
   "use_undetected", "js_wait_for", "js_scroll", "solve_captcha",
   "session_id", "session_ttl"]

/-- The first keyword argument of a call that the dataclass `__init__`
does not accept, if any. -/
def unexpectedKwarg (passed : List String) : Option String :=
  passed.find? fun k => !(scrapeOptionsFieldNames.contains k)

/-- The `TypeError` raised by `ScrapeOptions(...)` on an unknown keyword. -/
def dataclassKwargError (k : String) : PyExc :=
  PyExc.typeError
    ("ScrapeOptions.__init__() got an unexpected keyword argument \x27" ++ k ++ "\x27")

/-- The keyword arguments `handle_scrape_url` passes to `ScrapeOptions(...)`,
in source order. -/
def scrapeUrlKwargNames : List String :=
  ["use_js_render", "use_residential", "use_mobile", "use_undetected",
   "use_nodriver", "solve_captcha", "timeout", "js_wait_for",
   "session_id", "tls_profile"]

/-- The keyword arguments `handle_scrape_async` passes to
`ScrapeOptions(...)`, in source order. -/
def scrapeAsyncKwargNames : List String :=
  ["use_js_render", "use_residential", "use_mobile", "use_undetected",
   "use_nodriver", "solve_captcha", "timeout"]

/-- The oracle for one tool invocation: the configured timeout plus what
each client method's single remote call would do. -/
structure World where
  timeout : Int := 180
  scrape_b : HttpBehaviour := HttpBehaviour.timeout
  async_b : NetOutcome AsyncPayload := NetOutcome.raises (PyExc.other "down")
  job_b : NetOutcome JobPayload := NetOutcome.raises (PyExc.other "down")
  batch_b : NetOutcome BatchPayload := NetOutcome.raises (PyExc.other "down")
  usage_b : NetOutcome UsagePayload := NetOutcome.raises (PyExc.other "down")

/-- `handle_scrape_url`.  The source passes `use_nodriver=` to
`ScrapeOptions(...)`, which has no such field, so the construction raises
`TypeError` whenever it is reached. -/
def handle_scrape_url (w : World) (arguments : List (String × PyVal)) :
    Except PyExc (List TextContent) :=
  let url := pyGet arguments "url"
  if !(pyTruthy url) then Except.ok [mkText "Error: url is required"]
  else
    match unexpectedKwarg scrapeUrlKwargNames with
    | Option.some k => Except.error (dataclassKwargError k)
    | Option.none =>
      let options : ScrapeOptions :=
        { use_js_render := asBool (pyGetD arguments "use_js_render" (PyVal.bool false))
          use_residential := asBool (pyGetD arguments "use_residential" (PyVal.bool false))
          use_mobile := asBool (pyGetD arguments "use_mobile" (PyVal.bool false))
          use_undetected := asBool (pyGetD arguments "use_undetected" (PyVal.bool false))
          solve_captcha := asBool (pyGetD arguments "solve_captcha" (PyVal.bool false))
          timeout := asInt (pyGetD arguments "timeout" (PyVal.int 180))
          js_wait_for := pyStr (pyGetD arguments "js_wait_for" (PyVal.str "networkidle"))
          session_id := asOptStr (pyGet arguments "session_id")
          tls_profile := pyStr (pyGetD arguments "tls_profile" (PyVal.str "chrome124")) }
      match FineDataClient.scrape w.timeout (pyStr url) (some options) w.scrape_b with
      | Except.error e => Except.error e
      | Except.ok result =>
        if !result.success then
          let error_msg :=
            if optStrTruthy result.error then result.error.getD ""
            else "Request failed with status " ++ toString result.status_code
          let error_msg :=
            if optStrTruthy result.meta.block_reason then
              error_msg ++ " (block_reason: " ++ result.meta.block_reason.getD "" ++ ")"
            else error_msg
          Except.ok [mkText ("Error: " ++ error_msg)]
        else
          let response_parts :=
            ["Successfully scraped " ++ pyStr url,
             "Status: " ++ toString result.status_code,
             "Tokens used: " ++ toString result.tokens_used]
          let response_parts :=
            if result.captcha_detected then
              response_parts
                ++ ["Captcha detected: " ++
                      (match result.captcha_type with
                       | Option.none => "None"
                       | Option.some t => t)]
                ++ (if result.captcha_solved then ["Captcha solved: Yes"] else [])
            else response_parts
          let response_parts :=
            if optIntTruthy result.meta.response_time_ms then
              response_parts
                ++ ["Response time: " ++ toString (result.meta.response_time_ms.getD 0) ++ "ms"]
            else response_parts
          let response_parts := response_parts ++ ["", "--- Content ---", result.body]
          Except.ok [mkText (String.intercalate "\n" response_parts)]

/-- `handle_scrape_async`: also passes `use_nodriver=` to
`ScrapeOptions(...)`, so it raises `TypeError` once `url` is present. -/
def handle_scrape_async (w : World) (arguments : List (String × PyVal)) :
    Except PyExc (List TextContent) :=
  let url := pyGet arguments "url"
  if !(pyTruthy url) then Except.ok [mkText "Error: url is required"]
  else
    match unexpectedKwarg scrapeAsyncKwargNames with
    | Option.some k => Except.error (dataclassKwargError k)
    | Option.none =>
      let options : ScrapeOptions :=
        { use_js_render := asBool (pyGetD arguments "use_js_render" (PyVal.bool false))
          use_residential := asBool (pyGetD arguments "use_residential" (PyVal.bool false))
          use_mobile := asBool (pyGetD arguments "use_mobile" (PyVal.bool false))
          use_undetected := asBool (pyGetD arguments "use_undetected" (PyVal.bool false))
          solve_captcha := asBool (pyGetD arguments "solve_captcha" (PyVal.bool false))
          timeout := asInt (pyGetD arguments "timeout" (PyVal.int 180)) }
      match FineDataClient.scrape_async (pyStr url) (some options)
          (asOptStr (pyGet arguments "callback_url")) none w.async_b with
      | Except.error e => Except.error e
      | Except.ok job =>
        Except.ok [mkText
          ("Async job submitted successfully.\n\nJob ID: " ++ job.job_id
            ++ "\nStatus: " ++ job.status ++ "\nURL: " ++ job.url
            ++ "\nCreated: " ++ job.created_at
            ++ "\n\nUse get_job_status with job_id=\"" ++ job.job_id
            ++ "\" to check progress.")]

/-- `handle_get_job_status`. -/
def handle_get_job_status (w : World) (arguments : List (String × PyVal)) :
    Except PyExc (List TextContent) :=
  let job_id := pyGet arguments "job_id"
  if !(pyTruthy job_id) then Except.ok [mkText "Error: job_id is required"]
  else
    match FineDataClient.get_job_status (pyStr job_id) w.job_b with
    | Except.error e => Except.error e
    | Except.ok job =>
      let response_parts :=
        ["Job ID: " ++ job.job_id,
         "Status: " ++ job.status,
         "URL: " ++ job.url,
         "Created: " ++ job.created_at]
      let response_parts :=
        if optStrTruthy job.error then
          response_parts ++ ["Error: " ++ job.error.getD ""]
        else response_parts
      let response_parts :=
        match job.result with
        | Option.none => response_parts
        | Option.some res =>
            response_parts
              ++ ["", "--- Result ---",
                  "Success: " ++ pyStrBool res.success,
                  "Status code: " ++ toString res.status_code,
                  "Tokens used: " ++ toString res.tokens_used,
                  "", "--- Content ---", res.body]
      Except.ok [mkText (String.intercalate "\n" response_parts)]

/-- `str(x)` of the optional values interpolated by `handle_batch_scrape`. -/
def pyStrOptStr : Option String → String
  | Option.none => "None"
  | Option.some s => s

/-- `str(x)` of an optional int interpolated into an f-string. -/
def pyStrOptInt : Option Int → String
  | Option.none => "None"
  | Option.some n => toString n

/-- `handle_batch_scrape`. -/
def handle_batch_scrape (w : World) (arguments : List (String × PyVal)) :
    Except PyExc (List TextContent) :=
  let urls := pyGetD arguments "urls" (PyVal.list [])
  if !(pyTruthy urls) then Except.ok [mkText "Error: urls array is required"]
  else
    let urlsList : List String :=
      match urls with
      | PyVal.list l => l.map pyStr
      | _ => []
    if urlsList.length > 100 then
      Except.ok [mkText "Error: Maximum 100 URLs per batch"]
    else
      let options : ScrapeOptions :=
        { use_js_render := asBool (pyGetD arguments "use_js_render" (PyVal.bool false))
          use_residential := asBool (pyGetD arguments "use_residential" (PyVal.bool false))
          use_mobile := asBool (pyGetD arguments "use_mobile" (PyVal.bool false)) }
      match FineDataClient.batch_scrape urlsList (some options)
          (asOptStr (pyGet arguments "callback_url")) w.batch_b with
      | Except.error e => Except.error e
      | Except.ok result =>
        Except.ok [mkText
          ("Batch submitted successfully.\n\nBatch ID: " ++ pyStrOptStr result.batch_id
            ++ "\nTotal jobs: " ++ pyStrOptInt result.total_jobs
            ++ "\nStatus: " ++ pyStrOptStr result.status
            ++ "\n\nJob IDs:\n"
            ++ String.intercalate "\n" (result.job_ids.map fun jid => "  - " ++ jid)
            ++ "\n\nUse get_job_status to check individual job progress.")]

/-- `handle_get_usage`. -/
def handle_get_usage (w : World) (_arguments : List (String × PyVal)) :
    Except PyExc (List TextContent) :=
  match FineDataClient.get_usage w.usage_b with
  | Except.error e => Except.error e
  | Except.ok usage =>
    let customer_usage := usage.customer_usage.getD {}
    let charges := customer_usage.charges_usage.getD [{}]
    let tokens_used :=
      match charges with
      | [] => "0"
      | c :: _ => c.units.getD "0"
    Except.ok [mkText
      ("Current Usage\n\nPeriod: " ++ customer_usage.from_datetime.getD "N/A"
        ++ " to " ++ customer_usage.to_datetime.getD "N/A"
        ++ "\nTokens used: " ++ tokens_used
        ++ "\n\nFor detailed billing, visit https://finedata.ai/billing")]

/-- The `TOOL_HANDLERS` dispatch table. -/
def TOOL_HANDLERS (w : World) :
    List (String × (List (String × PyVal) → Except PyExc (List TextContent))) :=
  [("scrape_url", handle_scrape_url w),
   ("scrape_async", handle_scrape_async w),
   ("get_job_status", handle_get_job_status w),
   ("batch_scrape", handle_batch_scrape w),
   ("get_usage", handle_get_usage w)]

/-- `call_tool`: unknown names get a uniform text response, and the
handler runs inside `try/except Exception`. -/
def call_tool (w : World) (name : String) (arguments : List (String × PyVal)) :
    Except PyExc (List TextContent) :=
  match List.lookup name (TOOL_HANDLERS w) with
  | Option.none => Except.ok [mkText ("Error: Unknown tool \x27" ++ name ++ "\x27")]
  | Option.some handler =>
      match handler arguments with
      | Except.ok r => Except.ok r
      | Except.error e => Except.ok [mkText ("Error: " ++ excStr e)]

/-- The HTTP status of the response behind a behaviour, when one exists. -/
def httpStatus : HttpBehaviour → Option Int
  | HttpBehaviour.response status _ => some status
  | HttpBehaviour.responseBadJson status _ => some status
  | HttpBehaviour.timeout => none
  | HttpBehaviour.exc _ => none

/-- An environment whose credential variable is set to the empty string. -/
def envEmptyKey : String → Option String :=
  fun k => if k = "FINEDATA_API_KEY" then some "" else none

/-- An environment with only the credential set. -/
def envKeyOnly : String → Option String :=
  fun k => if k = "FINEDATA_API_KEY" then some "test-key" else none

/-- The mocked successful remote response of the spec's concrete
`scrape_url` scenario. -/
def c1Payload : ScrapePayload :=
  { success := some true, status_code := some 200,
    body := some "<html>...</html>", tokens_used := some 3 }

/-- A world in which the scrape endpoint returns the mocked success. -/
def c1World : World := { scrape_b := HttpBehaviour.response 200 c1Payload }

/-- A completed-job payload with an embedded result. -/
def c9Payload : JobPayload :=
  { job_id := "job-1", status := "completed", url := "https://example.com",
    created_at := "2024-01-01T00:00:00Z",
    result := some { success := some true, status_code := some 200,
                     body := some "<html>hi</html>" },
    tokens_used := some 3 }

/-- A job payload whose nested result carries its own `tokens_used` while
the top level omits it. -/
def c10Payload : JobPayload :=
  { job_id := "job-2", status := "completed", url := "https://example.com",
    created_at := "2024-01-02T00:00:00Z",
    result := some { success := some true, tokens_used := some 7 } }

/-! ## General lemmas -/

theorem containsStr_refl (s : String) : ContainsStr s s :=
  List.infix_refl _

theorem containsStr_append_left {a pat : String} (b : String)
    (h : ContainsStr a pat) : ContainsStr (a ++ b) pat := by
  unfold ContainsStr at *
  rw [String.data_append]
  exact h.trans ⟨[], b.data, by simp⟩

theorem containsStr_append_right {b pat : String} (a : String)
    (h : ContainsStr b pat) : ContainsStr (a ++ b) pat := by
  unfold ContainsStr at *
  rw [String.data_append]
  exact h.trans ⟨a.data, [], by simp⟩

theorem containsStr_left (a b : String) : ContainsStr (a ++ b) a :=
  containsStr_append_left b (containsStr_refl a)

theorem containsStr_right (a b : String) : ContainsStr (a ++ b) b :=
  containsStr_append_right a (containsStr_refl b)

theorem containsStr_intercalate_go (sep pat : String) :
    ∀ (as : List String) (acc : String),
      (ContainsStr acc pat ∨ ∃ x ∈ as, ContainsStr x pat) →
      ContainsStr (String.intercalate.go acc sep as) pat := by
  intro as
  induction as with
  | nil =>
      intro acc h
      rcases h with h | ⟨x, hx, _⟩
      · simpa [String.intercalate.go] using h
      · simp at hx
  | cons y ys ih =>
      intro acc h
      show ContainsStr (String.intercalate.go (acc ++ sep ++ y) sep ys) pat
      apply ih
      rcases h with h | ⟨x, hx, hxp⟩
      · exact Or.inl (containsStr_append_left y (containsStr_append_left sep h))
      · rcases List.mem_cons.mp hx with rfl | hx2
        · exact Or.inl (containsStr_append_right (acc ++ sep) hxp)
        · exact Or.inr ⟨x, hx2, hxp⟩

/-- A member of the joined list occurs inside `"sep".join(parts)`. -/
theorem containsStr_intercalate (sep : String) {l : List String} {x pat : String}
    (hx : x ∈ l) (hp : ContainsStr x pat) :
    ContainsStr (String.intercalate sep l) pat := by
  cases l with
  | nil => simp at hx
  | cons a as =>
      show ContainsStr (String.intercalate.go a sep as) pat
      apply containsStr_intercalate_go
      rcases List.mem_cons.mp hx with rfl | hx2
      · exact Or.inl hp
      · exact Or.inr ⟨x, hx2, hp⟩

theorem pyIntErrMsg_ne_apiKeyErrMsg (s : String) : pyIntErrMsg s ≠ apiKeyErrMsg := by
  intro h
  have h2 := congrArg String.data h
  rw [pyIntErrMsg, String.data_append, String.data_append] at h2
  have hp : ("invalid literal for int() with base 10: \x27" : String).data
      = 'i' :: ("nvalid literal for int() with base 10: \x27" : String).data := rfl
  have hk : apiKeyErrMsg.data
      = 'F' :: ("INEDATA_API_KEY environment variable is required. Get your API key at https://finedata.ai" : String).data := rfl
  rw [hp, hk, List.cons_append] at h2
  exact absurd (List.head_eq_of_cons_eq h2) (by decide)

/-! ## Claim theorems -/

/-- C8: serializing any options record with `to_dict` includes every
documented option field, and each field left unset serializes to the
declared default value. -/
theorem c8_to_dict_complete (o : ScrapeOptions) :
    (o.to_dict.map Prod.fst) = scrapeOptionsFieldNames
    ∧ ScrapeOptions.to_dict {} =
        [("method", PyVal.str "GET"),
         ("headers", PyVal.dict []),
         ("body", PyVal.none),
         ("tls_profile", PyVal.str "chrome124"),
         ("max_retries", PyVal.int 5),
         ("timeout", PyVal.int 60),
         ("use_antibot", PyVal.bool true),
         ("use_js_render", PyVal.bool false),
         ("use_residential", PyVal.bool false),
         ("use_mobile", PyVal.bool false),
         ("use_undetected", PyVal.bool false),
         ("js_wait_for", PyVal.str "networkidle"),
         ("js_scroll", PyVal.bool false),
         ("solve_captcha", PyVal.bool false),
         ("session_id", PyVal.none),
         ("session_ttl", PyVal.int 1800)] :=
  ⟨rfl, rfl⟩

/-- C2: for every url, options and behaviour of the HTTP layer, `scrape`
returns a `ScrapeResult` and never raises: HTTP 401 and 402, transport
timeouts and any other exception all become failure results. -/
theorem c2_scrape_never_raises (timeout : Int) (url : String)
    (options : Option ScrapeOptions) (b : HttpBehaviour) :
    ∃ r : ScrapeResult, FineDataClient.scrape timeout url options b = Except.ok r
      ∧ (httpStatus b = some 401 → r = scrapeResult401)
      ∧ (httpStatus b = some 402 → r = scrapeResult402)
      ∧ (b = HttpBehaviour.timeout → r.success = false ∧ r.status_code = 504)
      ∧ (∀ m, b = HttpBehaviour.exc m →
          r.success = false ∧ r.status_code = 500 ∧ r.error = some m) := by
  cases b with
  | response status data =>
      by_cases h1 : status = 401
      · subst h1
        exact ⟨scrapeResult401, by simp [FineDataClient.scrape, scrapeTryBody],
          fun _ => rfl, by simp [httpStatus], by simp, by simp⟩
      · by_cases h2 : status = 402
        · subst h2
          exact ⟨scrapeResult402, by simp [FineDataClient.scrape, scrapeTryBody],
            by simp [httpStatus], fun _ => rfl, by simp, by simp⟩
        · exact ⟨{ success := data.success.getD false,
                   status_code := data.status_code.getD status,
                   headers := data.headers.getD [],
                   body := data.body.getD "",
                   meta := data.meta.getD {},
                   tokens_used := data.tokens_used.getD 0,
                   captcha_detected := data.captcha_detected.getD false,
                   captcha_type := data.captcha_type,
                   captcha_solved := data.captcha_solved.getD false },
            by simp [FineDataClient.scrape, scrapeTryBody, h1, h2],
            by simp [httpStatus, h1], by simp [httpStatus, h2], by simp, by simp⟩
  | responseBadJson status m =>
      by_cases h1 : status = 401
      · subst h1
        exact ⟨scrapeResult401, by simp [FineDataClient.scrape, scrapeTryBody],
          fun _ => rfl, by simp [httpStatus], by simp, by simp⟩
      · by_cases h2 : status = 402
        · subst h2
          exact ⟨scrapeResult402, by simp [FineDataClient.scrape, scrapeTryBody],
            by simp [httpStatus], fun _ => rfl, by simp, by simp⟩
        · exact ⟨{ success := false, status_code := 500, headers := [], body := "",
                   meta := {}, tokens_used := 0,
                   error := some (excStr (PyExc.jsonError m)) },
            by simp [FineDataClient.scrape, scrapeTryBody, h1, h2],
            by simp [httpStatus, h1], by simp [httpStatus, h2], by simp, by simp⟩
  | timeout =>
      exact ⟨{ success := false, status_code := 504, headers := [], body := "",
               meta := {}, tokens_used := 0,
               error := some ("Request timed out after " ++ toString timeout ++ " seconds") },
        by simp [FineDataClient.scrape, scrapeTryBody],
        by simp [httpStatus], by simp [httpStatus], fun _ => ⟨rfl, rfl⟩, by simp⟩
  | exc m =>
      exact ⟨{ success := false, status_code := 500, headers := [], body := "",
               meta := {}, tokens_used := 0, error := some (excStr (PyExc.other m)) },
        by simp [FineDataClient.scrape, scrapeTryBody],
        by simp [httpStatus], by simp [httpStatus], by simp,
        fun m2 hm => by
          cases hm
          exact ⟨rfl, rfl, by simp [excStr]⟩⟩

/-- C2 witness: the timeout behaviour at a concrete input yields a 504
failure result without raising. -/
theorem c2_scrape_never_raises_witness :
    ∃ r : ScrapeResult,
      FineDataClient.scrape 180 "https://example.com" none HttpBehaviour.timeout
        = Except.ok r ∧ r.success = false ∧ r.status_code = 504 := by
  obtain ⟨r, hok, _, _, ht, _⟩ :=
    c2_scrape_never_raises 180 "https://example.com" none HttpBehaviour.timeout
  exact ⟨r, hok, (ht rfl).1, (ht rfl).2⟩

/-- C4: a synchronous scrape whose HTTP response has status 401 returns a
result with success=false, status_code=401 and an error string mentioning
the API key credential. -/
theorem c4_scrape_401 (timeout : Int) (url : String)
    (options : Option ScrapeOptions) (b : HttpBehaviour)
    (h : httpStatus b = some 401) :
    FineDataClient.scrape timeout url options b = Except.ok scrapeResult401
    ∧ scrapeResult401.success = false
    ∧ scrapeResult401.status_code = 401
    ∧ ∃ msg, scrapeResult401.error = some msg
        ∧ ContainsStr msg "API key" ∧ ContainsStr msg "FINEDATA_API_KEY" := by
  refine ⟨?_, rfl, rfl, "Invalid API key. Check your FINEDATA_API_KEY.", rfl,
    by decide, by decide⟩
  cases b with
  | response status data =>
      have hs : status = 401 := by simpa [httpStatus] using h
      subst hs
      simp [FineDataClient.scrape, scrapeTryBody]
  | responseBadJson status m =>
      have hs : status = 401 := by simpa [httpStatus] using h
      subst hs
      simp [FineDataClient.scrape, scrapeTryBody]
  | timeout => simp [httpStatus] at h
  | exc m => simp [httpStatus] at h

/-- C4 witness: a concrete 401 response produces the credential-error
result. -/
theorem c4_scrape_401_witness :
    FineDataClient.scrape 180 "https://example.com" none
        (HttpBehaviour.response 401 {}) = Except.ok scrapeResult401
    ∧ scrapeResult401.success = false
    ∧ scrapeResult401.status_code = 401
    ∧ ∃ msg, scrapeResult401.error = some msg
        ∧ ContainsStr msg "API key" ∧ ContainsStr msg "FINEDATA_API_KEY" :=
  c4_scrape_401 180 "https://example.com" none (HttpBehaviour.response 401 {}) rfl

/-- C5: a synchronous scrape that times out at the transport level returns
success=false, status_code=504 and an error string containing the
configured timeout value. -/
theorem c5_scrape_timeout (timeout : Int) (url : String)
    (options : Option ScrapeOptions) :
    FineDataClient.scrape timeout url options HttpBehaviour.timeout =
      Except.ok
        { success := false, status_code := 504, headers := [], body := "",
          meta := {}, tokens_used := 0,
          error := some ("Request timed out after " ++ toString timeout ++ " seconds") }
    ∧ ContainsStr ("Request timed out after " ++ toString timeout ++ " seconds")
        (toString timeout) := by
  refine ⟨rfl, ?_⟩
  exact containsStr_append_left " seconds"
    (containsStr_right "Request timed out after " (toString timeout))

/-- C3: with more than 100 URLs, `batch_scrape` fails locally with a
"Maximum 100" message regardless of what the network would do (the client
raises, the handler returns an error text response). -/
theorem c3_batch_cap :
    (∀ (urls : List String) (options : Option ScrapeOptions)
        (cb : Option String) (b : NetOutcome BatchPayload),
      urls.length > 100 →
        FineDataClient.batch_scrape urls options cb b =
          Except.error (PyExc.valueError "Maximum 100 URLs per batch"))
    ∧ (∀ (w : World) (arguments : List (String × PyVal)) (l : List PyVal),
        pyGetD arguments "urls" (PyVal.list []) = PyVal.list l →
        l.length > 100 →
          handle_batch_scrape w arguments =
            Except.ok [mkText "Error: Maximum 100 URLs per batch"])
    ∧ ContainsStr "Maximum 100 URLs per batch" "Maximum 100"
    ∧ ContainsStr "Error: Maximum 100 URLs per batch" "Maximum 100" := by
  refine ⟨?_, ?_, by decide, by decide⟩
  · intro urls options cb b h
    simp [FineDataClient.batch_scrape, h]
  · intro w arguments l hurls hlen
    have hne : l ≠ [] := by
      intro h0
      rw [h0] at hlen
      simp at hlen
    simp [handle_batch_scrape, hurls, pyTruthy, hne, hlen]

/-- C3 witness: 101 URLs trip the cap at both levels. -/
theorem c3_batch_cap_witness :
    FineDataClient.batch_scrape (List.replicate 101 "https://example.com") none none
        (NetOutcome.raises (PyExc.other "network unavailable")) =
      Except.error (PyExc.valueError "Maximum 100 URLs per batch")
    ∧ handle_batch_scrape {}
        [("urls", PyVal.list (List.replicate 101 (PyVal.str "https://example.com")))] =
      Except.ok [mkText "Error: Maximum 100 URLs per batch"] :=
  ⟨c3_batch_cap.1 (List.replicate 101 "https://example.com") none none
      (NetOutcome.raises (PyExc.other "network unavailable")) (by simp),
   c3_batch_cap.2.1 {}
      [("urls", PyVal.list (List.replicate 101 (PyVal.str "https://example.com")))]
      (List.replicate 101 (PyVal.str "https://example.com")) rfl (by simp)⟩

/-- C6: dispatching never lets an exception escape — `call_tool` always
returns a text response, and an unknown tool name yields the uniform
"unknown tool" text. -/
theorem c6_call_tool_total (w : World) (name : String)
    (arguments : List (String × PyVal)) :
    (∃ ts, call_tool w name arguments = Except.ok ts)
    ∧ (List.lookup name (TOOL_HANDLERS w) = none →
        call_tool w name arguments =
          Except.ok [mkText ("Error: Unknown tool \x27" ++ name ++ "\x27")]) := by
  constructor
  · unfold call_tool
    cases h : List.lookup name (TOOL_HANDLERS w) with
    | none => exact ⟨_, rfl⟩
    | some handler =>
        cases h2 : handler arguments with
        | ok r => exact ⟨r, by simp [h2]⟩
        | error e => exact ⟨[mkText ("Error: " ++ excStr e)], by simp [h2]⟩
  · intro h
    unfold call_tool
    rw [h]

/-- C6 witness: an unknown tool name gets the uniform text response, and a
known tool whose handler raises still returns a text response. -/
theorem c6_call_tool_total_witness :
    call_tool {} "frobnicate" [] =
      Except.ok [mkText "Error: Unknown tool \x27frobnicate\x27"]
    ∧ ∃ ts, call_tool {} "get_usage" [] = Except.ok ts :=
  ⟨(c6_call_tool_total {} "frobnicate" []).2 rfl,
   (c6_call_tool_total {} "get_usage" []).1⟩

/-- Every error `pyInt` can raise is a `ValueError` carrying the
bad-literal message. -/
theorem pyInt_error_msg (s : String) (e : PyExc)
    (h : pyInt s = Except.error e) : e = PyExc.valueError (pyIntErrMsg s) := by
  unfold pyInt at h
  rcases hd : s.data with _ | ⟨c, cs⟩ <;> rw [hd] at h
  · exact (Except.error.inj h).symm
  · dsimp only at h
    split_ifs at h <;> exact (Except.error.inj h).symm

/-- C7 counterexample: an environment whose credential variable is present
but set to the empty string still fails configuration loading, so the
failure does not happen exactly when the variable is absent. -/
theorem c7_counterexample :
    envEmptyKey "FINEDATA_API_KEY" = some ""
    ∧ Config.from_env envEmptyKey = Except.error (PyExc.valueError apiKeyErrMsg) :=
  ⟨rfl, rfl⟩

/-- C7 amended: configuration loading fails with the credential error —
whose message names `FINEDATA_API_KEY` — exactly when the credential
environment value is absent or empty; with a non-empty credential and the
other two variables unset, the base URL and timeout fall back to
`https://api.finedata.ai` and 180. -/
theorem c7_amended (env : String → Option String) :
    (Config.from_env env = Except.error (PyExc.valueError apiKeyErrMsg)
      ↔ (env "FINEDATA_API_KEY").getD "" = "")
    ∧ ContainsStr apiKeyErrMsg "FINEDATA_API_KEY"
    ∧ (∀ k, env "FINEDATA_API_KEY" = some k → k ≠ "" →
        env "FINEDATA_API_URL" = none → env "FINEDATA_TIMEOUT" = none →
          Config.from_env env =
            Except.ok
              { api_key := k, api_url := "https://api.finedata.ai", timeout := 180 }) := by
  refine ⟨⟨?_, ?_⟩, by decide, ?_⟩
  · intro h
    by_contra hne
    unfold Config.from_env at h
    rw [if_neg hne] at h
    cases hp : pyInt ((env "FINEDATA_TIMEOUT").getD "180") with
    | ok t => rw [hp] at h; exact absurd h (by simp)
    | error e =>
        rw [hp] at h
        have he := Except.error.inj h
        have hshape := pyInt_error_msg _ _ hp
        rw [hshape] at he
        have hmsg := PyExc.valueError.inj he
        exact pyIntErrMsg_ne_apiKeyErrMsg _ hmsg
  · intro h
    unfold Config.from_env
    rw [if_pos h]
  · intro k hk hne hu ht
    unfold Config.from_env
    rw [hk]
    rw [if_neg (by simpa using hne)]
    rw [ht]
    have h180 : pyInt ((none : Option String).getD "180") = Except.ok 180 := rfl
    rw [h180, hu]
    rfl

/-- C7 amended witness: with only the credential set, loading succeeds
with the default base URL and timeout; with the credential empty, loading
fails with the credential error. -/
theorem c7_amended_witness :
    Config.from_env envKeyOnly =
      Except.ok
        { api_key := "test-key", api_url := "https://api.finedata.ai", timeout := 180 }
    ∧ Config.from_env envEmptyKey = Except.error (PyExc.valueError apiKeyErrMsg) :=
  ⟨(c7_amended envKeyOnly).2.2 "test-key" rfl (by decide) rfl rfl,
   (c7_amended envEmptyKey).1.mpr rfl⟩

/-- C10: the embedded result built by `get_job_status` takes `tokens_used`
from the top level of the payload (default 0 when absent), never from the
nested result object. -/
theorem c10_tokens_from_top_level (job_id : String) (payload : JobPayload)
    (r : ResultPayload) (h : payload.result = some r) :
    ∃ job, FineDataClient.get_job_status job_id (NetOutcome.ok payload) = Except.ok job
      ∧ ∃ res, job.result = some res
          ∧ res.tokens_used = payload.tokens_used.getD 0
          ∧ (payload.tokens_used = none → res.tokens_used = 0) := by
  refine ⟨{ job_id := payload.job_id, status := payload.status, url := payload.url,
            created_at := payload.created_at,
            result := some { success := r.success.getD false,
                             status_code := r.status_code.getD 0,
                             headers := r.headers.getD [],
                             body := r.body.getD "",
                             meta := r.meta.getD {},
                             tokens_used := payload.tokens_used.getD 0 },
            error := payload.error },
    by simp [FineDataClient.get_job_status, h],
    ⟨_, rfl, rfl, fun hnone => by simp [hnone]⟩⟩

/-- C10 witness: a payload whose nested result carries tokens_used = 7 but
whose top level omits the key yields an embedded result with
tokens_used = 0. -/
theorem c10_tokens_from_top_level_witness :
    ∃ job, FineDataClient.get_job_status "job-2" (NetOutcome.ok c10Payload) = Except.ok job
      ∧ ∃ res, job.result = some res
          ∧ res.tokens_used = c10Payload.tokens_used.getD 0
          ∧ (c10Payload.tokens_used = none → res.tokens_used = 0) :=
  c10_tokens_from_top_level "job-2" c10Payload
    { success := some true, tokens_used := some 7 } rfl

/-- C9: a `get_job_status` invocation whose remote payload includes an
embedded result produces a text response containing the job id, status,
url and creation timestamp as well as the embedded result's body text. -/
theorem c9_job_status_format (w : World) (arguments : List (String × PyVal))
    (jid : String) (payload : JobPayload) (r : ResultPayload)
    (hargs : pyGet arguments "job_id" = PyVal.str jid) (hjid : jid ≠ "")
    (hw : w.job_b = NetOutcome.ok payload) (hr : payload.result = some r) :
    ∃ text, handle_get_job_status w arguments = Except.ok [mkText text]
      ∧ ContainsStr text payload.job_id
      ∧ ContainsStr text payload.status
      ∧ ContainsStr text payload.url
      ∧ ContainsStr text payload.created_at
      ∧ ContainsStr text (r.body.getD "") := by
  by_cases he : optStrTruthy payload.error = true
  · refine ⟨String.intercalate "\n"
      ["Job ID: " ++ payload.job_id, "Status: " ++ payload.status,
       "URL: " ++ payload.url, "Created: " ++ payload.created_at,
       "Error: " ++ payload.error.getD "",
       "", "--- Result ---",
       "Success: " ++ pyStrBool (r.success.getD false),
       "Status code: " ++ toString (r.status_code.getD 0),
       "Tokens used: " ++ toString (payload.tokens_used.getD 0),
       "", "--- Content ---", r.body.getD ""], ?_, ?_, ?_, ?_, ?_, ?_⟩
    · simp [handle_get_job_status, hargs, pyTruthy, hjid, pyStr,
        FineDataClient.get_job_status, hw, hr, he]
    · exact containsStr_intercalate "\n" (by simp)
        (containsStr_right "Job ID: " payload.job_id)
    · exact containsStr_intercalate "\n" (by simp)
        (containsStr_right "Status: " payload.status)
    · exact containsStr_intercalate "\n" (by simp)
        (containsStr_right "URL: " payload.url)
    · exact containsStr_intercalate "\n" (by simp)
        (containsStr_right "Created: " payload.created_at)
    · exact containsStr_intercalate "\n" (by simp) (containsStr_refl _)
  · refine ⟨String.intercalate "\n"
      ["Job ID: " ++ payload.job_id, "Status: " ++ payload.status,
       "URL: " ++ payload.url, "Created: " ++ payload.created_at,
       "", "--- Result ---",
       "Success: " ++ pyStrBool (r.success.getD false),
       "Status code: " ++ toString (r.status_code.getD 0),
       "Tokens used: " ++ toString (payload.tokens_used.getD 0),
       "", "--- Content ---", r.body.getD ""], ?_, ?_, ?_, ?_, ?_, ?_⟩
    · simp [handle_get_job_status, hargs, pyTruthy, hjid, pyStr,
        FineDataClient.get_job_status, hw, hr, he]
    · exact containsStr_intercalate "\n" (by simp)
        (containsStr_right "Job ID: " payload.job_id)
    · exact containsStr_intercalate "\n" (by simp)
        (containsStr_right "Status: " payload.status)
    · exact containsStr_intercalate "\n" (by simp)
        (containsStr_right "URL: " payload.url)
    · exact containsStr_intercalate "\n" (by simp)
        (containsStr_right "Created: " payload.created_at)
    · exact containsStr_intercalate "\n" (by simp) (containsStr_refl _)

/-- C9 witness: a concrete completed job with an embedded result. -/
theorem c9_job_status_format_witness :
    ∃ text, handle_get_job_status { job_b := NetOutcome.ok c9Payload }
        [("job_id", PyVal.str "job-1")] = Except.ok [mkText text]
      ∧ ContainsStr text c9Payload.job_id
      ∧ ContainsStr text c9Payload.status
      ∧ ContainsStr text c9Payload.url
      ∧ ContainsStr text c9Payload.created_at
      ∧ ContainsStr text
          (Option.getD
            (ResultPayload.body
              { success := some true, status_code := some 200,
                body := some "<html>hi</html>" }) "") :=
  c9_job_status_format { job_b := NetOutcome.ok c9Payload }
    [("job_id", PyVal.str "job-1")] "job-1" c9Payload
    { success := some true, status_code := some 200, body := some "<html>hi</html>" }
    rfl (by decide) rfl rfl

set_option maxRecDepth 8192 in
/-- C1: evaluating the spec's concrete success scenario.  The handler
passes `use_nodriver=` to `ScrapeOptions(...)`, which has no such field,
so every `scrape_url` invocation raises `TypeError` before the remote
call and `call_tool` converts it to an error text — the promised
"Successfully scraped ..." response is never produced. -/
theorem c1_scrape_url_bug :
    call_tool c1World "scrape_url" [("url", PyVal.str "https://example.com")] =
      Except.ok [mkText
        "Error: ScrapeOptions.__init__() got an unexpected keyword argument \x27use_nodriver\x27"]
    ∧ ¬ ContainsStr
        "Error: ScrapeOptions.__init__() got an unexpected keyword argument \x27use_nodriver\x27"
        "Successfully scraped https://example.com"
    ∧ ¬ ContainsStr
        "Error: ScrapeOptions.__init__() got an unexpected keyword argument \x27use_nodriver\x27"
        "Tokens used: 3" := by
  refine ⟨rfl, by decide, by decide⟩
